import Mathlib

/-!
Shallow embedding of the PWA Focus Timer's server-side heartbeat validator
and streak reconciler (the `POST` handler, `completeTimer` and `updateStreak`
functions of `src/app/api/mantra/route.ts`, lines 555-689) and of the service
worker's offline completion sync (`syncTimerCompletion` in
`src/public/sw.js`).

Conventions of the embedding:
- Timestamps are milliseconds since the epoch, modelled as `Int` (JS numbers
  are exact on these magnitudes).  All `Date.now()` calls inside a single
  request are modelled by one clock reading `now` supplied as a parameter.
- An ISO calendar-date string `new Date(t).toISOString().split('T')[0]` is
  modelled as the day index `utcDay t = t.fdiv 86400000`; ISO date strings
  are in an order- and equality-preserving bijection with these indices.
- The database rows touched by the handler (the user's `timer_sessions` row
  and their `streaks` row) are modelled by the `Db` structure; a Supabase
  `update` with a patch object is modelled by a record update that changes
  exactly the patched fields.
- Authentication (`session.user.id !== userId` check) is delegated to an
  external collaborator and assumed to have passed; the embedding starts at
  the session fetch.  The request fields `sessionId` and `clientTime` are
  not read by the handler logic and are omitted.
-/

namespace FocusTimer

/-- A row of the `timer_sessions` table, with the fields the handler reads or
writes.  `duration` is in seconds (the handler compares against
`duration * 1000`).  Nullable columns are `Option`. -/
structure TimerSession where
  id : Nat
  userId : Nat
  startTime : Int
  duration : Int
  completed : Bool
  suspicious : Bool
  driftAmount : Int
  lastHeartbeat : Option Int
  heartbeatCount : Option Int
  endTime : Option Int
  validated : Bool
  deriving Repr, DecidableEq

/-- A row of the `streaks` table.  `lastCompleted` is a calendar-day index
(see `utcDay`). -/
structure Streak where
  currentStreak : Int
  longestStreak : Int
  lastCompleted : Int
  deriving Repr, DecidableEq

/-- The database state the handler touches for one user: their most recent
uncompleted timer session row (the handler queries
`eq('completed', false) ... limit(1).single()`; the spec's single-active-
session invariant makes this the user's one session row) and their streak
row. -/
structure Db where
  session : Option TimerSession
  streak : Option Streak
  deriving Repr, DecidableEq

def msPerDay : Int := 86400000

/-- Day index of a timestamp: models
`new Date(t).toISOString().split('T')[0]`, the UTC calendar date. -/
def utcDay (t : Int) : Int := Int.fdiv t msPerDay

/-- `updateStreak` (route.ts lines 647-689).  The source reads the streak
row, computes `today` and `yesterday` from `Date.now()` in UTC, and writes
the branch's patch; we return the resulting streak row (the no-op branch
returns the row unchanged). -/
def updateStreak (streak : Option Streak) (now : Int) : Streak :=
  let today := utcDay now
  let yesterday := utcDay (now - msPerDay)
  match streak with
  | none =>
      { currentStreak := 1, longestStreak := 1, lastCompleted := today }
  | some s =>
      if s.lastCompleted = yesterday then
        let newStreak := s.currentStreak + 1
        { currentStreak := newStreak,
          longestStreak := max newStreak s.longestStreak,
          lastCompleted := today }
      else if s.lastCompleted ≠ today then
        { currentStreak := 1, longestStreak := s.longestStreak,
          lastCompleted := today }
      else s

/-- `completeTimer` (route.ts lines 632-645): patch the session row with
`completed = true, end_time = now, validated = true`, then run
`updateStreak`. -/
def completeTimer (db : Db) (now : Int) : Db :=
  { session := db.session.map fun ts =>
      { ts with completed := true, endTime := some now, validated := true },
    streak := some (updateStreak db.streak now) }

/-- The heartbeat endpoint's possible JSON responses (route.ts `POST`). -/
inductive HeartbeatResult where
  | errorResp (msg : String) (status : Int)
  | driftWarning (serverTime drift : Int)
  | completed (elapsed : Int)
  | active (serverTime elapsed remaining : Int)
  deriving Repr, DecidableEq

/-- The session fetch (route.ts lines 567-574): the user's session row if it
exists and is not completed, else no row (`error || !timerSession`). -/
def fetchActive (db : Db) : Option TimerSession :=
  match db.session with
  | none => none
  | some s => if s.completed then none else some s

/-- Body of the `POST` handler after a successful fetch (route.ts lines
580-624): drift check, heartbeat bookkeeping, completion check. -/
def heartbeatCore (db : Db) (ts : TimerSession) (elapsed now : Int) :
    Db × HeartbeatResult :=
  let serverElapsed := now - ts.startTime
  let timeDrift := |serverElapsed - elapsed|
  if timeDrift > 5000 then
    let flagged : TimerSession :=
      { ts with suspicious := true, driftAmount := timeDrift }
    ({ db with session := some flagged }, .driftWarning now timeDrift)
  else
    let beat : TimerSession :=
      { ts with lastHeartbeat := some now,
                heartbeatCount := some (ts.heartbeatCount.getD 0 + 1) }
    let db1 : Db := { db with session := some beat }
    if serverElapsed ≥ ts.duration * 1000 then
      (completeTimer db1 now, .completed serverElapsed)
    else
      (db1, .active now serverElapsed (ts.duration * 1000 - serverElapsed))

/-- The `POST` heartbeat handler (route.ts lines 555-630), post-auth: fetch
the active session, 404 if none, else `heartbeatCore`. -/
def heartbeat (db : Db) (elapsed now : Int) : Db × HeartbeatResult :=
  match fetchActive db with
  | none => (db, .errorResp "No active timer session" 404)
  | some ts => heartbeatCore db ts elapsed now

/-- The timer record the service worker keeps in IndexedDB (`saveTimerState`,
sw.js lines 82-98; only the fields `syncTimerCompletion` reads). -/
structure SwTimerState where
  startTime : Int
  duration : Int
  userId : Nat
  deriving Repr, DecidableEq

/-- The network effect of one `syncTimerCompletion` run. -/
inductive SyncAction where
  | noSend
  | sendCompletion (userId : Nat) (duration startTime endTime : Int)
  deriving Repr, DecidableEq

/-- `syncTimerCompletion` (sw.js lines 192-219), successful-fetch case:
if a state is stored and `Date.now() - startTime >= duration` it POSTs the
completion payload and clears the record, else it does nothing. -/
def syncTimerCompletion (state : Option SwTimerState) (now : Int) :
    Option SwTimerState × SyncAction :=
  match state with
  | none => (none, .noSend)
  | some s =>
      let elapsed := now - s.startTime
      if elapsed ≥ s.duration then
        (none, .sendCompletion s.userId s.duration s.startTime now)
      else
        (some s, .noSend)

/-- Calendar day in a user's local timezone, modelled from the spec's words:
the day boundary shifted by the timezone's offset from UTC (in ms).  Used
only to compare the spec's timezone-local completion date with the date the
code computes. -/
def specLocalDay (t offset : Int) : Int := utcDay (t + offset)

/-- Example active session: started at epoch 0, 10-second duration. -/
def exTs : TimerSession :=
  { id := 1, userId := 7, startTime := 0, duration := 10, completed := false,
    suspicious := false, driftAmount := 0, lastHeartbeat := none,
    heartbeatCount := none, endTime := none, validated := false }

/-- Example database holding `exTs` and no streak row. -/
def exDb : Db := { session := some exTs, streak := none }

/-- Example session already flagged suspicious. -/
def susTs : TimerSession := { exTs with suspicious := true, driftAmount := 7000 }

/-- Example database holding the suspicious session. -/
def susDb : Db := { session := some susTs, streak := none }

/-- Example session already completed. -/
def cTs : TimerSession :=
  { exTs with completed := true, endTime := some 10000, validated := true }

/-- Example database holding the completed session and an existing streak. -/
def cDb : Db :=
  { session := some cTs,
    streak := some { currentStreak := 2, longestStreak := 5, lastCompleted := 0 } }

theorem utcDay_sub_msPerDay (t : Int) : utcDay (t - msPerDay) = utcDay t - 1 := by
  unfold utcDay msPerDay
  rw [Int.fdiv_eq_ediv _ (by norm_num), Int.fdiv_eq_ediv _ (by norm_num)]
  omega

theorem heartbeat_fetch_some (db : Db) (ts : TimerSession) (e now : Int)
    (h : fetchActive db = some ts) :
    heartbeat db e now = heartbeatCore db ts e now := by
  unfold heartbeat
  rw [h]

theorem fetchActive_none_of_completed (db : Db) (ts : TimerSession)
    (hdb : db.session = some ts) (hc : ts.completed = true) :
    fetchActive db = none := by
  unfold fetchActive
  rw [hdb]
  simp [hc]

theorem fetchActive_eq_some (db : Db) (ts : TimerSession)
    (h : fetchActive db = some ts) :
    db.session = some ts ∧ ts.completed = false := by
  unfold fetchActive at h
  cases hdb : db.session with
  | none => rw [hdb] at h; simp at h
  | some s =>
      rw [hdb] at h
      by_cases hc : s.completed
      · simp [hc] at h
      · simp [hc] at h
        subst h
        exact ⟨rfl, by simpa using hc⟩

/-- C1: the claim that `clientElapsedMs` never changes the completion moment
is false on the code: with the session 10 s old and its 10 s target reached,
a matching client elapsed completes the session, while a client elapsed of
-1 ms trips the drift gate, returns a drift warning, and leaves the session
uncompleted — the same server state at the same server time completes or
not depending only on the client-supplied value. -/
theorem C1_counterexample :
    (heartbeat exDb 10000 10000).2 = .completed 10000 ∧
    (heartbeat exDb 10000 10000).1.session.map TimerSession.completed = some true ∧
    (heartbeat exDb (-1) 10000).2 = .driftWarning 10000 10001 ∧
    (heartbeat exDb (-1) 10000).1.session.map TimerSession.completed = some false := by
  decide

/-- C1 (amended): `serverElapsed` is computed only from `startTime` and the
server clock, and among heartbeats whose drift is within the 5000 ms
tolerance the client-supplied elapsed value never changes the outcome: two
calls on the same state at the same server time that differ only in an
in-tolerance `clientElapsedMs` produce identical results and identical
successor states (so in particular the same completion decision). -/
theorem C1_amended_client_elapsed_indep (db : Db) (ts : TimerSession)
    (e1 e2 now : Int) (hfetch : fetchActive db = some ts)
    (h1 : |now - ts.startTime - e1| ≤ 5000)
    (h2 : |now - ts.startTime - e2| ≤ 5000) :
    heartbeat db e1 now = heartbeat db e2 now := by
  rw [heartbeat_fetch_some db ts e1 now hfetch,
      heartbeat_fetch_some db ts e2 now hfetch]
  simp only [heartbeatCore]
  rw [if_neg (not_lt.mpr h1), if_neg (not_lt.mpr h2)]

theorem C1_amended_client_elapsed_indep_witness :
    |(1000 : Int) - exTs.startTime - 999| ≤ 5000 ∧
    |(1000 : Int) - exTs.startTime - 1004| ≤ 5000 ∧
    heartbeat exDb 999 1000 = heartbeat exDb 1004 1000 :=
  ⟨by decide, by decide,
   C1_amended_client_elapsed_indep exDb exTs 999 1004 1000
     (by decide) (by decide) (by decide)⟩

/-- C2: a heartbeat on an uncompleted session whose drift exceeds 5000 ms
sets `suspicious = true`, persists `drift_amount` equal to the drift, and
returns the drift warning carrying the server time and the drift; no other
field changes, so in particular the session is not completed on that call
(even when `serverElapsed ≥ duration * 1000`, as the witness instantiates). -/
theorem C2_drift_branch (db : Db) (ts : TimerSession) (e now : Int)
    (hfetch : fetchActive db = some ts)
    (hdrift : |now - ts.startTime - e| > 5000) :
    heartbeat db e now =
      ({ db with
          session := some { ts with
            suspicious := true,
            driftAmount := |now - ts.startTime - e| } },
       .driftWarning now (|now - ts.startTime - e|)) ∧
    (heartbeat db e now).1.session.map TimerSession.completed = some false := by
  have hcomp : ts.completed = false := (fetchActive_eq_some db ts hfetch).2
  have heq : heartbeat db e now =
      ({ db with
          session := some { ts with
            suspicious := true,
            driftAmount := |now - ts.startTime - e| } },
       .driftWarning now (|now - ts.startTime - e|)) := by
    rw [heartbeat_fetch_some db ts e now hfetch]
    simp only [heartbeatCore]
    rw [if_pos hdrift]
  refine ⟨heq, ?_⟩
  rw [heq]
  simp [hcomp]

theorem C2_drift_branch_witness :
    (heartbeat exDb (-1) 10000 =
      ({ exDb with
          session := some { exTs with
            suspicious := true,
            driftAmount := |(10000 : Int) - exTs.startTime - (-1)| } },
       .driftWarning 10000 (|(10000 : Int) - exTs.startTime - (-1)|)) ∧
     (heartbeat exDb (-1) 10000).1.session.map TimerSession.completed
       = some false) ∧
    (10000 : Int) - exTs.startTime ≥ exTs.duration * 1000 :=
  ⟨C2_drift_branch exDb exTs (-1) 10000 (by decide) (by decide), by decide⟩

/-- C3: an in-tolerance heartbeat with `serverElapsed ≥ duration * 1000`
completes the session: status becomes completed, `end_time` is set to the
server time, the streak update (`updateStreak`) runs synchronously on the
user's streak row, and the response is `completed` with the final
server-measured elapsed time. -/
theorem C3_completion (db : Db) (ts : TimerSession) (e now : Int)
    (hfetch : fetchActive db = some ts)
    (hdrift : |now - ts.startTime - e| ≤ 5000)
    (hdur : now - ts.startTime ≥ ts.duration * 1000) :
    (heartbeat db e now).2 = .completed (now - ts.startTime) ∧
    (heartbeat db e now).1.session.map TimerSession.completed = some true ∧
    (heartbeat db e now).1.session.map TimerSession.endTime = some (some now) ∧
    (heartbeat db e now).1.streak = some (updateStreak db.streak now) := by
  have heq : heartbeat db e now =
      (completeTimer { db with session := some { ts with
          lastHeartbeat := some now,
          heartbeatCount := some (ts.heartbeatCount.getD 0 + 1) } } now,
       .completed (now - ts.startTime)) := by
    rw [heartbeat_fetch_some db ts e now hfetch]
    simp only [heartbeatCore]
    rw [if_neg (not_lt.mpr hdrift), if_pos hdur]
  rw [heq]
  simp [completeTimer]

theorem C3_completion_witness :
    |(10000 : Int) - exTs.startTime - 10000| ≤ 5000 ∧
    (10000 : Int) - exTs.startTime ≥ exTs.duration * 1000 ∧
    ((heartbeat exDb 10000 10000).2 = .completed (10000 - exTs.startTime) ∧
     (heartbeat exDb 10000 10000).1.session.map TimerSession.completed
       = some true ∧
     (heartbeat exDb 10000 10000).1.session.map TimerSession.endTime
       = some (some 10000) ∧
     (heartbeat exDb 10000 10000).1.streak
       = some (updateStreak exDb.streak 10000)) :=
  ⟨by decide, by decide,
   C3_completion exDb exTs 10000 10000 (by decide) (by decide) (by decide)⟩

/-- C4: the claim that an in-tolerance heartbeat clears a previously set
Suspicious flag is false on the code: on a session already flagged
suspicious, a zero-drift heartbeat returns an active result but leaves
`suspicious = true` — no code path ever writes `suspicious := false`. -/
theorem C4_counterexample :
    susDb.session.map TimerSession.suspicious = some true ∧
    |(1000 : Int) - susTs.startTime - 1000| ≤ 5000 ∧
    (heartbeat susDb 1000 1000).2 = .active 1000 1000 9000 ∧
    (heartbeat susDb 1000 1000).1.session.map TimerSession.suspicious
      = some true := by
  decide

/-- C4 (amended): the suspicious flag after a heartbeat is `true` when the
drift exceeds 5000 ms and is otherwise exactly its previous value — an
in-tolerance heartbeat never sets the flag, but it also never clears a
previously set flag. -/
theorem C4_amended_suspicious_flag (db : Db) (ts : TimerSession) (e now : Int)
    (hfetch : fetchActive db = some ts) :
    (heartbeat db e now).1.session.map TimerSession.suspicious =
      some (if |now - ts.startTime - e| > 5000 then true else ts.suspicious) := by
  rw [heartbeat_fetch_some db ts e now hfetch]
  simp only [heartbeatCore]
  by_cases h : |now - ts.startTime - e| > 5000
  · rw [if_pos h, if_pos h]
    simp
  · rw [if_neg h, if_neg h]
    by_cases hd : now - ts.startTime ≥ ts.duration * 1000
    · rw [if_pos hd]
      simp [completeTimer]
    · rw [if_neg hd]
      simp

theorem C4_amended_suspicious_flag_witness :
    (heartbeat susDb 1000 1000).1.session.map TimerSession.suspicious =
      some (if |(1000 : Int) - susTs.startTime - 1000| > 5000 then true
            else susTs.suspicious) :=
  C4_amended_suspicious_flag susDb susTs 1000 1000 (by decide)

/-- C5: the claim that a heartbeat on a Completed session is rejected with a
`SessionAlreadyCompleted` error and returns the same completed result both
times is false on the code: the fetch filters on `completed = false`, so a
completed session yields the 404 error response "No active timer session"
(there is no SessionAlreadyCompleted error anywhere in the code), not a
completed result.  The part of the claim that holds: the state — streak row
included — is untouched, so the streak is never double-counted, and a second
call returns the same error. -/
theorem C5_counterexample :
    cDb.session.map TimerSession.completed = some true ∧
    heartbeat cDb 5 7 = (cDb, .errorResp "No active timer session" 404) ∧
    heartbeat (heartbeat cDb 5 7).1 5 8 =
      (cDb, .errorResp "No active timer session" 404) ∧
    (heartbeat cDb 5 7).2 ≠ .completed 7 ∧
    (heartbeat cDb 5 7).1.streak = cDb.streak := by
  decide

/-- C5 (amended): a heartbeat on a user whose session is already completed
is rejected with the `No active timer session` 404 error (not a
SessionAlreadyCompleted error, not a completed result); the database —
streak row included — is left unchanged, so the streak updater never runs
again, and a repeated call returns the identical error response. -/
theorem C5_amended_completed_rejected (db : Db) (ts : TimerSession)
    (e1 e2 n1 n2 : Int) (hdb : db.session = some ts)
    (hc : ts.completed = true) :
    heartbeat db e1 n1 = (db, .errorResp "No active timer session" 404) ∧
    heartbeat (heartbeat db e1 n1).1 e2 n2 =
      (db, .errorResp "No active timer session" 404) := by
  have hf : fetchActive db = none := fetchActive_none_of_completed db ts hdb hc
  have h1 : heartbeat db e1 n1 = (db, .errorResp "No active timer session" 404) := by
    unfold heartbeat
    rw [hf]
  refine ⟨h1, ?_⟩
  rw [h1]
  show heartbeat db e2 n2 = _
  unfold heartbeat
  rw [hf]

theorem C5_amended_completed_rejected_witness :
    heartbeat cDb 5 7 = (cDb, .errorResp "No active timer session" 404) ∧
    heartbeat (heartbeat cDb 5 7).1 6 8 =
      (cDb, .errorResp "No active timer session" 404) :=
  C5_amended_completed_rejected cDb cTs 5 6 7 8 (by decide) (by decide)

/-- C10: frame of the drift branch — when drift exceeds 5000 ms the whole
database after the call is the old one with only `suspicious` and
`drift_amount` rewritten on the session row (so `heartbeat_count`,
`last_heartbeat`, `start_time`, `duration` and the streak row are exactly
as before, the branch returning before the bookkeeping update and the
completion check); and on every heartbeat call the session's `start_time`
and `duration` are unchanged. -/
theorem C10_frame (db : Db) (ts : TimerSession) (e now : Int)
    (hfetch : fetchActive db = some ts) :
    (|now - ts.startTime - e| > 5000 →
      (heartbeat db e now).1 = { db with
        session := some { ts with
          suspicious := true,
          driftAmount := |now - ts.startTime - e| } }) ∧
    (heartbeat db e now).1.session.map TimerSession.startTime
      = some ts.startTime ∧
    (heartbeat db e now).1.session.map TimerSession.duration
      = some ts.duration := by
  refine ⟨fun h => ?_, ?_⟩
  · rw [heartbeat_fetch_some db ts e now hfetch]
    simp only [heartbeatCore]
    rw [if_pos h]
  · rw [heartbeat_fetch_some db ts e now hfetch]
    simp only [heartbeatCore]
    split_ifs with h1 h2
    · simp
    · simp [completeTimer]
    · simp

theorem C10_frame_witness :
    (|(10000 : Int) - exTs.startTime - (-1)| > 5000 →
      (heartbeat exDb (-1) 10000).1 = { exDb with
        session := some { exTs with
          suspicious := true,
          driftAmount := |(10000 : Int) - exTs.startTime - (-1)| } }) ∧
    (heartbeat exDb (-1) 10000).1.session.map TimerSession.startTime
      = some exTs.startTime ∧
    (heartbeat exDb (-1) 10000).1.session.map TimerSession.duration
      = some exTs.duration :=
  C10_frame exDb exTs (-1) 10000 (by decide)

theorem updateStreak_lastCompleted_eq (streak : Option Streak) (now : Int) :
    (updateStreak streak now).lastCompleted = utcDay now := by
  cases streak with
  | none => rfl
  | some s =>
      simp only [updateStreak, utcDay_sub_msPerDay]
      by_cases h1 : s.lastCompleted = utcDay now - 1
      · rw [if_pos h1]
      · rw [if_neg h1]
        by_cases h2 : s.lastCompleted ≠ utcDay now
        · rw [if_pos h2]
        · rw [if_neg h2]
          exact not_not.mp h2

/-- C6: the streak update rule table.  With `completionDate` the calendar
day the code computes from the clock (`utcDay now`): no record creates
`(1, 1, completionDate)`; same day is a no-op returning the record
unchanged; exactly one day after the stored date increments
`currentStreak`, takes the max into `longestStreak` and advances the date;
every other case (gap of two or more days, or a stored date after
`completionDate`) resets `currentStreak` to 1, advances the date and leaves
`longestStreak` unchanged. -/
theorem C6_streak_rules (s : Streak) (now : Int) :
    updateStreak none now =
      { currentStreak := 1, longestStreak := 1, lastCompleted := utcDay now } ∧
    (s.lastCompleted = utcDay now → updateStreak (some s) now = s) ∧
    (s.lastCompleted = utcDay now - 1 →
      updateStreak (some s) now =
        { currentStreak := s.currentStreak + 1,
          longestStreak := max (s.currentStreak + 1) s.longestStreak,
          lastCompleted := utcDay now }) ∧
    (s.lastCompleted ≠ utcDay now → s.lastCompleted ≠ utcDay now - 1 →
      updateStreak (some s) now =
        { currentStreak := 1, longestStreak := s.longestStreak,
          lastCompleted := utcDay now }) := by
  refine ⟨rfl, fun hsame => ?_, fun hyest => ?_, fun hne hny => ?_⟩
  · simp only [updateStreak, utcDay_sub_msPerDay]
    rw [if_neg (by omega : ¬s.lastCompleted = utcDay now - 1),
        if_neg (not_not_intro hsame)]
  · simp only [updateStreak, utcDay_sub_msPerDay]
    rw [if_pos hyest]
  · simp only [updateStreak, utcDay_sub_msPerDay]
    rw [if_neg hny, if_pos hne]

theorem C6_streak_rules_witness :
    (updateStreak
        (some { currentStreak := 2, longestStreak := 5, lastCompleted := -1 })
        1000 =
      { currentStreak := 2 + 1, longestStreak := max (2 + 1) 5,
        lastCompleted := utcDay 1000 }) ∧
    (updateStreak
        (some { currentStreak := 2, longestStreak := 5, lastCompleted := -4 })
        1000 =
      { currentStreak := 1, longestStreak := 5, lastCompleted := utcDay 1000 }) :=
  ⟨(C6_streak_rules
      { currentStreak := 2, longestStreak := 5, lastCompleted := -1 }
      1000).2.2.1 (by decide),
   (C6_streak_rules
      { currentStreak := 2, longestStreak := 5, lastCompleted := -4 }
      1000).2.2.2 (by decide) (by decide)⟩

/-- C7: the claim that the completion date is the calendar date in the
user's recorded local timezone is false on the code: the streak update
derives the date with `new Date().toISOString().split('T')[0]`, the
server's UTC calendar date, and neither the session nor the streak row
stores a timezone.  At 1 second past UTC midnight, a user whose timezone
is one hour behind UTC is still on the previous local day, yet the code
records the UTC day. -/
theorem C7_counterexample :
    (updateStreak none 1000).lastCompleted = utcDay 1000 ∧
    specLocalDay 1000 (-3600000) ≠ utcDay 1000 := by
  decide

/-- C7 (amended): the completion date recorded by the streak update — and
used by its day comparisons — is the server's UTC calendar date of the
current clock reading; the user's timezone is never consulted. -/
theorem C7_amended_utc_date (streak : Option Streak) (now : Int) :
    (updateStreak streak now).lastCompleted = utcDay now :=
  updateStreak_lastCompleted_eq streak now

/-- C8: the claim that `lastCompletedDate` never regresses — including when
the stored date lies after the new completion date — is false on the code:
a stored date of day 5 hit by a completion on day 0 falls into the reset
branch, which writes the current day 0 back, regressing the stored date. -/
theorem C8_counterexample :
    (updateStreak
        (some { currentStreak := 3, longestStreak := 4, lastCompleted := 5 })
        0).lastCompleted < 5 := by
  decide

/-- C8 (amended): `lastCompletedDate` only advances or stays equal whenever
the stored date is at most the current calendar day; a stored date in the
future of the clock (clock anomaly) is instead pulled back to the current
day. -/
theorem C8_amended_monotone (s : Streak) (now : Int)
    (h : s.lastCompleted ≤ utcDay now) :
    s.lastCompleted ≤ (updateStreak (some s) now).lastCompleted := by
  rw [updateStreak_lastCompleted_eq (some s) now]
  exact h

theorem C8_amended_monotone_witness :
    ((-1 : Int) ≤ utcDay 1000) ∧
    (({ currentStreak := 2, longestStreak := 5, lastCompleted := -1 } : Streak).lastCompleted ≤
      (updateStreak
        (some { currentStreak := 2, longestStreak := 5, lastCompleted := -1 })
        1000).lastCompleted) :=
  ⟨by decide,
   C8_amended_monotone
     { currentStreak := 2, longestStreak := 5, lastCompleted := -1 }
     1000 (by decide)⟩

/-- C9: the service worker's completion sync compares the millisecond
elapsed time `Date.now() - startTime` directly against the stored
`duration` field with no `× 1000` conversion, although the duration is in
seconds everywhere else in the code (the server handler checks
`serverElapsed >= duration * 1000`): with a 1500-second timer started at
time 0, the sync already sends the completion event at `now = 1500` ms —
far before the 1,500,000 ms target the claim (and the server-side check)
require. -/
theorem C9_unit_bug :
    syncTimerCompletion
        (some { startTime := 0, duration := 1500, userId := 7 }) 1500 =
      (none, .sendCompletion 7 1500 0 1500) ∧
    (1500 : Int) < 1500 * 1000 := by
  decide

end FocusTimer
